import Mathlib

/-!
Verification of `decode_genome.py` (Genome-Decoder).

The Python source is shallowly embedded: each method of `GenomeDecoder`
becomes a Lean function over explicit state, Python strings become Lean
`String`s, Python dicts become insertion-ordered association lists, and
float divisions that can raise `ZeroDivisionError` are modelled in the
`Except` monad.
-/

namespace GenomeDecoder

/-- ASCII whitespace recognized by Python `str.strip()`. -/
def isPySpace (c : Char) : Bool :=
  c = ' ' || c = '\t' || c = '\n' || c = '\r' || c = '\x0b' || c = '\x0c'

/-- Python `line.strip()`: drop leading and trailing whitespace. -/
def pyStrip (s : String) : String :=
  ⟨((s.toList.dropWhile isPySpace).reverse.dropWhile isPySpace).reverse⟩

/-- Python `s.startswith(p)`. -/
def pyStartsWith (s p : String) : Bool :=
  List.isPrefixOf p.toList s.toList

/-- Helper for `pySplitTab`: accumulates the current field (reversed). -/
def splitTabGo : List Char → List Char → List String
  | [], acc => [String.mk acc.reverse]
  | c :: cs, acc =>
      if c = '\t' then String.mk acc.reverse :: splitTabGo cs []
      else splitTabGo cs (c :: acc)

/-- Python `line.split('\t')`: e.g. `"" ↦ [""]`, `"a\tb" ↦ ["a","b"]`. -/
def pySplitTab (s : String) : List String :=
  splitTabGo s.toList []

/-- Python `s.isdigit()` restricted to the ASCII fragment: nonempty and
all characters in `'0'..'9'`. On ASCII input this coincides with the full
Unicode semantics (`pyIsDigitU` below, see `parsePositionU_ascii`); the
record pipeline uses this restriction. -/
def pyIsDigit (s : String) : Bool :=
  !s.toList.isEmpty && s.toList.all Char.isDigit

/-- Python `int(s)` on a string of ASCII decimal digits. -/
def strToNat (s : String) : Nat :=
  s.toList.foldl (fun n c => n * 10 + (c.toNat - '0'.toNat)) 0

/-- The `position` field of a parsed record:
`int(position) if position.isdigit() else position`. -/
inductive PyPos where
  | int (n : Nat)
  | str (s : String)
deriving DecidableEq, Repr

/-- Line 36 of the source, `int(position) if position.isdigit() else
position`, on the ASCII fragment, where the conversion cannot raise; the
full Unicode semantics with the `ValueError` path is `parsePositionU`
below, which agrees with this on ASCII fields (`parsePositionU_ascii`). -/
def parsePosition (p : String) : PyPos :=
  if pyIsDigit p then .int (strToNat p) else .str p

/-- One dict appended to `self.snps`. -/
structure Record where
  rsid : String
  chromosome : String
  position : PyPos
  genotype : String
deriving DecidableEq, Repr

/-- What the parsing loop does with one raw input line. -/
inductive LineResult where
  | skipped
  | discarded
  | record (r : Record)
deriving DecidableEq, Repr

/-- The 4-field unpacking `rsid, chromosome, position, genotype = parts`
guarded by `len(parts) == 4` (lines 29-38). -/
def parseFields (fields : List String) : LineResult :=
  match fields with
  | [rsid, chromosome, position, genotype] =>
      .record ⟨rsid, chromosome, parsePosition position, genotype⟩
  | _ => .discarded

/-- The per-line logic of `parse_genome_file` (lines 21-38): strip, skip
comments/blank lines, skip lines starting with `rsid`, split on tabs, and
build a record only from exactly 4 fields; otherwise the line is dropped
without any effect. -/
def classifyLine (rawLine : String) : LineResult :=
  let line := pyStrip rawLine
  if pyStartsWith line "#" || line == "" then .skipped
  else if pyStartsWith line "rsid" then .skipped
  else parseFields (pySplitTab line)

/-- Python `defaultdict(int)` / `Counter` increment preserving dict
insertion order: bump the existing key in place, else append `(k, 1)`. -/
def incr : List (String × Nat) → String → List (String × Nat)
  | [], k => [(k, 1)]
  | (k', v) :: rest, k =>
      if k' = k then (k, v + 1) :: rest else (k', v) :: incr rest k

/-- Aggregation state of a `GenomeDecoder` instance. -/
structure DecoderState where
  snps : List Record
  chromosome_counts : List (String × Nat)
  genotype_counts : List (String × Nat)
  total_snps : Nat
  no_calls : Nat
deriving DecidableEq, Repr

/-- Fresh state from `__init__`. -/
def initState : DecoderState := ⟨[], [], [], 0, 0⟩

/-- The body of the parsing loop for one line (lines 20-45). -/
def step (st : DecoderState) (line : String) : DecoderState :=
  match classifyLine line with
  | .record r =>
      { snps := st.snps ++ [r]
        chromosome_counts := incr st.chromosome_counts r.chromosome
        genotype_counts := incr st.genotype_counts r.genotype
        total_snps := st.total_snps + 1
        no_calls := if r.genotype = "--" then st.no_calls + 1 else st.no_calls }
  | _ => st

/-- `parse_genome_file` over a given line sequence. -/
def parse_genome_file (lines : List String) : DecoderState :=
  lines.foldl step initState

/-! ### `generate_summary` (lines 49-101) -/

/-- The sort key built for each chromosome label (lines 62-67):
`(int(chrom), chrom)` for digit strings, else 100 for `"X"`,
101 for `"Y"`, 102 otherwise, paired with the label. -/
def chromKey (c : String) : Nat × String :=
  if pyIsDigit c then (strToNat c, c)
  else (if c = "X" then 100 else if c = "Y" then 101 else 102, c)

/-- Python tuple `<` on the keys: lexicographic on `(Nat, String)`. -/
def chromKeyLt (a b : Nat × String) : Prop :=
  a.1 < b.1 ∨ (a.1 = b.1 ∧ a.2 < b.2)

/-- The display ordering on chromosome labels induced by
`sorted_chromosomes.sort()` (line 69). -/
def chromLt (a b : String) : Prop :=
  chromKeyLt (chromKey a) (chromKey b)

/-- Boolean form of `chromKeyLt`, used by the executable sort. -/
def chromKeyLtB (a b : Nat × String) : Bool :=
  decide (a.1 < b.1) || (decide (a.1 = b.1) && decide (a.2 < b.2))

/-- Stable insertion for ascending sort by `chromKeyLtB`. -/
def insertKey (x : Nat × String) : List (Nat × String) → List (Nat × String)
  | [] => [x]
  | y :: ys => if chromKeyLtB x y then x :: y :: ys else y :: insertKey x ys

/-- `list.sort()` on the key tuples (stable, ascending). -/
def sortChrom : List (Nat × String) → List (Nat × String)
  | [] => []
  | x :: xs => insertKey x (sortChrom xs)

/-- Python dict lookup `m[k]` defaulting to 0 (`defaultdict(int)`). -/
def lookupCount : List (String × Nat) → String → Nat
  | [], _ => 0
  | (k, v) :: rest, g => if k = g then v else lookupCount rest g

/-- Both genotype characters of a length-2 genotype are identical
(`genotype[0] == genotype[1]`, line 87). -/
def isHomo2 (g : String) : Bool :=
  match g.toList with
  | [a, b] => a == b
  | _ => false

/-- Length-2 genotype with differing characters. -/
def isHet2 (g : String) : Bool :=
  match g.toList with
  | [a, b] => a != b
  | _ => false

/-- The homozygous/heterozygous accumulation loop (lines 81-90): skip the
no-call sentinel, classify genotypes of length exactly 2, ignore the rest. -/
def homoHetTotals : List (String × Nat) → Nat × Nat
  | [] => (0, 0)
  | (g, c) :: rest =>
      let hh := homoHetTotals rest
      if g = "--" then hh
      else
        match g.toList with
        | [a, b] => if a = b then (hh.1 + c, hh.2) else (hh.1, hh.2 + c)
        | _ => hh

/-- `100*num/den` as Python float division: raises `ZeroDivisionError`
when the denominator is 0 (lines 55, 56, 92, 93). -/
def pctOf (num den : Nat) : Except String Rat :=
  if den = 0 then Except.error "ZeroDivisionError"
  else Except.ok (100 * (num : Rat) / (den : Rat))

/-- `(num / den) * 100` as Python float division (lines 73, 100). -/
def ratioPct (num den : Nat) : Except String Rat :=
  if den = 0 then Except.error "ZeroDivisionError"
  else Except.ok ((num : Rat) / (den : Rat) * 100)

/-- Stable insertion for descending sort by count (`Counter.most_common`). -/
def insertDesc (x : String × Nat) : List (String × Nat) → List (String × Nat)
  | [] => [x]
  | y :: ys => if y.2 < x.2 then x :: y :: ys else y :: insertDesc x ys

/-- Stable descending sort by count. -/
def sortDesc : List (String × Nat) → List (String × Nat)
  | [] => []
  | x :: xs => insertDesc x (sortDesc xs)

/-- `self.genotype_counts.most_common(n)`. -/
def mostCommon (m : List (String × Nat)) (n : Nat) : List (String × Nat) :=
  (sortDesc m).take n

/-- The numeric content of the summary report. -/
structure Summary where
  genotypedPct : Rat
  noCallPct : Rat
  chromRows : List (String × Nat × Rat)
  homozygous : Nat
  heterozygous : Nat
  homoPct : Rat
  hetPct : Rat
  topRows : List (String × Nat × Rat)

/-- `generate_summary` (lines 49-101): every Python float division is
modelled in `Except`, so a `ZeroDivisionError` in the script surfaces as
`Except.error`. -/
def generate_summary (st : DecoderState) : Except String Summary := do
  let genotypedPct ← pctOf (st.total_snps - st.no_calls) st.total_snps
  let noCallPct ← pctOf st.no_calls st.total_snps
  let sortedChroms := (sortChrom (st.chromosome_counts.map (fun p => chromKey p.1))).map Prod.snd
  let chromRows ← sortedChroms.mapM (fun chrom => do
      let count := lookupCount st.chromosome_counts chrom
      let p ← ratioPct count st.total_snps
      pure (chrom, count, p))
  let hh := homoHetTotals st.genotype_counts
  let homoPct ← pctOf hh.1 (hh.1 + hh.2)
  let hetPct ← pctOf hh.2 (hh.1 + hh.2)
  let topRows ← (mostCommon st.genotype_counts 10).mapM (fun p => do
      let q ← ratioPct p.2 st.total_snps
      pure (p.1, p.2, q))
  pure ⟨genotypedPct, noCallPct, chromRows, hh.1, hh.2, homoPct, hetPct, topRows⟩

/-! ### `analyze_specific_snps` (lines 103-197) -/

/-- The `interesting_snps` table (lines 108-117). -/
def interesting_snps : List (String × String) :=
  [("rs1815739", "ACTN3 gene (muscle performance)"),
   ("rs1800497", "DRD2 gene (dopamine receptor)"),
   ("rs4680", "COMT gene (dopamine metabolism)"),
   ("rs1799971", "OPRM1 gene (opioid receptor)"),
   ("rs9939609", "FTO gene (obesity risk)"),
   ("rs7903146", "TCF7L2 gene (diabetes risk)"),
   ("rs429358", "APOE gene variant (Alzheimers risk)"),
   ("rs7412", "APOE gene variant (Alzheimers risk)")]

/-- Python dict assignment `m[k] = v`, preserving insertion order. -/
def updateAssoc {α : Type} : List (String × α) → String → α → List (String × α)
  | [], k, v => [(k, v)]
  | (k', v') :: rest, k, v =>
      if k' = k then (k, v) :: rest else (k', v') :: updateAssoc rest k v

/-- Python dict lookup `m.get(k)` / `k in m`. -/
def lookupAssoc {α : Type} : List (String × α) → String → Option α
  | [], _ => none
  | (k', v') :: rest, k => if k' = k then some v' else lookupAssoc rest k

/-- One iteration of the scan over `self.snps` (lines 156-160): record the
snp in `found_snps` when its rsid is a notable marker, and its genotype in
`apoe_snps` when it is one of the two APOE markers. -/
def snpScanStep (acc : List (String × Record) × List (String × String)) (snp : Record) :
    List (String × Record) × List (String × String) :=
  if (lookupAssoc interesting_snps snp.rsid).isSome then
    (updateAssoc acc.1 snp.rsid snp,
     if snp.rsid = "rs429358" || snp.rsid = "rs7412" then
       updateAssoc acc.2 snp.rsid snp.genotype
     else acc.2)
  else acc

/-- The `found_snps` and `apoe_snps` dicts after the scan. -/
def buildFound (records : List Record) :
    List (String × Record) × List (String × String) :=
  records.foldl snpScanStep ([], [])

/-- The fixed 6-case APOE table (lines 182-193), as genotype pair → named
allele-pair result; `none` for any pair not in the table. -/
def apoeTable (g1 g2 : String) : Option String :=
  if g1 = "TT" && g2 = "TT" then some "ε2/ε2"
  else if g1 = "TT" && g2 = "CT" then some "ε2/ε3"
  else if g1 = "TT" && g2 = "CC" then some "ε3/ε3"
  else if g1 = "CT" && g2 = "CC" then some "ε3/ε4"
  else if g1 = "CC" && g2 = "CC" then some "ε4/ε4"
  else if g1 = "CT" && g2 = "CT" then some "ε2/ε4"
  else none

/-- What `analyze_specific_snps` reports about APOE. -/
inductive ApoeOutput where
  | typed (t : String)
  | undetermined
  | incomplete
  | noOutput
deriving DecidableEq, Repr

/-- The APOE portion of `analyze_specific_snps` (lines 162-197): nothing is
printed when no notable marker was found (early return) or when neither
APOE marker is present; with both present the 6-case table decides, its
fall-through being the explicit "Unable to determine" message; with exactly
one present the status is "Incomplete". -/
def apoeStatus (records : List Record) : ApoeOutput :=
  let fa := buildFound records
  if fa.1.isEmpty then .noOutput
  else
    match lookupAssoc fa.2 "rs429358", lookupAssoc fa.2 "rs7412" with
    | some g1, some g2 =>
        match apoeTable g1 g2 with
        | some t => .typed t
        | none => .undetermined
    | some _, none => .incomplete
    | none, some _ => .incomplete
    | none, none => .noOutput

/-- The genotype of the last parsed record carrying marker `r`, if any:
the observation the APOE branch works from. -/
def lastGenotype (records : List Record) (r : String) : Option String :=
  ((records.filter (fun s => s.rsid == r)).getLast?).map (fun s => s.genotype)

/-! Unicode-faithful model of line 36. Python `str.isdigit()` accepts every
character of Numeric_Type Digit or Decimal, while `int()` accepts only
decimal digits (category Nd), so `int(position) if position.isdigit() else
position` raises `ValueError` on fields such as `"²"` (U+00B2, `isdigit()`
is `True` but `int` rejects it) and parses non-ASCII Nd fields such as
`"٣"` (U+0663) to their integer value. The character tables below embed
the Unicode character database for the code points this development
evaluates: the ASCII digits, the Arabic-Indic digits U+0660..U+0669 as a
representative non-ASCII Nd range, and the superscripts U+00B9/U+00B2/
U+00B3 as representative Digit-but-not-decimal characters; code points
outside these ranges are not asserted by the model. -/

/-- The decimal-digit (category Nd) value of a character, as accepted by
Python `int()`: ASCII `'0'..'9'` and the Arabic-Indic digits
U+0660..U+0669; `none` on characters `int()` rejects. -/
def charDecValue (c : Char) : Option Nat :=
  if c.isDigit then some (c.toNat - '0'.toNat)
  else if 0x660 ≤ c.toNat && c.toNat ≤ 0x669 then some (c.toNat - 0x660)
  else none

/-- Character-level Python `isdigit()`: Numeric_Type Decimal or Digit —
the decimal digits of `charDecValue` plus the superscript digits
U+00B9 (¹), U+00B2 (²), U+00B3 (³), which `isdigit()` accepts but `int()`
rejects. -/
def pyCharIsDigit (c : Char) : Bool :=
  (charDecValue c).isSome || c.toNat == 0xB9 || c.toNat == 0xB2 || c.toNat == 0xB3

/-- Python `s.isdigit()` with the Unicode digit characters. -/
def pyIsDigitU (s : String) : Bool :=
  !s.toList.isEmpty && s.toList.all pyCharIsDigit

/-- Python `int(s)` on an `isdigit()`-accepted string: the base-10 value
when every character is a decimal digit (category Nd), a raised
`ValueError` otherwise. -/
def strToInt (s : String) : Except String Nat :=
  if s.toList.all (fun c => (charDecValue c).isSome) then
    Except.ok (s.toList.foldl (fun n c => n * 10 + (charDecValue c).getD 0) 0)
  else Except.error "ValueError"

/-- Line 36 of the source, `int(position) if position.isdigit() else
position`, under the Unicode semantics of `isdigit` and `int`: a raised
`ValueError` surfaces as `Except.error`. -/
def parsePositionU (p : String) : Except String PyPos :=
  if pyIsDigitU p then (strToInt p).map PyPos.int
  else Except.ok (PyPos.str p)

/-- `parseFields` under the Unicode position model: a `ValueError` raised
by the position conversion propagates out of the record construction. -/
def parseFieldsU (fields : List String) : Except String LineResult :=
  match fields with
  | [rsid, chromosome, position, genotype] =>
      (parsePositionU position).map fun pos =>
        .record ⟨rsid, chromosome, pos, genotype⟩
  | _ => .ok .discarded

/-- `classifyLine` under the Unicode position model. -/
def classifyLineU (rawLine : String) : Except String LineResult :=
  let line := pyStrip rawLine
  if pyStartsWith line "#" || line == "" then .ok .skipped
  else if pyStartsWith line "rsid" then .ok .skipped
  else parseFieldsU (pySplitTab line)

/-! ### Helper lemmas -/

lemma parseFields_ne_skipped (l : List String) : parseFields l ≠ LineResult.skipped := by
  rcases l with _ | ⟨a, _ | ⟨b, _ | ⟨c, _ | ⟨d, _ | ⟨e, tl⟩⟩⟩⟩⟩ <;> simp [parseFields]

lemma parseFields_record_length (l : List String) (r : Record)
    (h : parseFields l = LineResult.record r) : l.length = 4 := by
  rcases l with _ | ⟨a, _ | ⟨b, _ | ⟨c, _ | ⟨d, _ | ⟨e, tl⟩⟩⟩⟩⟩ <;>
    simp [parseFields] at h ⊢

lemma classifyLine_record_length (line : String) (r : Record)
    (h : classifyLine line = LineResult.record r) :
    (pySplitTab (pyStrip line)).length = 4 := by
  unfold classifyLine at h
  by_cases h1 : (pyStartsWith (pyStrip line) "#" || pyStrip line == "") = true
  · rw [if_pos h1] at h; exact absurd h (by simp)
  · rw [if_neg h1] at h
    by_cases h2 : pyStartsWith (pyStrip line) "rsid" = true
    · rw [if_pos h2] at h; exact absurd h (by simp)
    · rw [if_neg h2] at h
      exact parseFields_record_length _ _ h

/-! ### Claims about percentage computation crashes (C1, C9) -/

/-- C1: the spec requires the zero-total case to be special-cased so that
generating the summary reports zeros instead of dividing by zero, but the
code has no such guard: for every parsed state with `total_snps = 0` the
very first percentage (line 55) raises `ZeroDivisionError`. -/
theorem generate_summary_zero_total_raises (st : DecoderState)
    (h : st.total_snps = 0) :
    generate_summary st = Except.error "ZeroDivisionError" := by
  unfold generate_summary
  rw [h]
  rfl

/-- Witness: header-only input parses to a zero-total state on which the
summary computation raises instead of reporting zeros. -/
theorem generate_summary_zero_total_raises_witness :
    (parse_genome_file ["# comment", "rsid\tchromosome\tposition\tgenotype"]).total_snps = 0 ∧
    generate_summary (parse_genome_file ["# comment", "rsid\tchromosome\tposition\tgenotype"]) =
      Except.error "ZeroDivisionError" :=
  ⟨rfl, generate_summary_zero_total_raises _ rfl⟩

/-- C9: an input with a positive total whose records are all no-calls makes
the homozygous/heterozygous percentage (line 92) divide by zero: the
zero-total guard demanded by the spec would not cover this degenerate case. -/
theorem generate_summary_all_nocall_raises :
    (parse_genome_file ["rs123\t1\t100\t--"]).total_snps = 1 ∧
    homoHetTotals (parse_genome_file ["rs123\t1\t100\t--"]).genotype_counts = (0, 0) ∧
    generate_summary (parse_genome_file ["rs123\t1\t100\t--"]) =
      Except.error "ZeroDivisionError" :=
  ⟨rfl, rfl, rfl⟩

/-! ### Claims about line skipping and field parsing (C5, C4, C8) -/

/-- C5 counterexample: a well-formed 4-field data line whose marker
identifier `"rsid123"` merely starts with `"rsid"` (but is not equal to it)
is skipped by the parser, because the header test is `line.startswith('rsid')`
(line 26), not an equality test on the first tab-separated token. -/
theorem classifyLine_rsid_prefix_counterexample :
    classifyLine "rsid123\t1\t100\tAA" = LineResult.skipped ∧
    (pySplitTab "rsid123\t1\t100\tAA").length = 4 ∧
    (pySplitTab "rsid123\t1\t100\tAA").head? = some "rsid123" ∧
    ("rsid123" : String) ≠ "rsid" ∧
    pyStrip "rsid123\t1\t100\tAA" = "rsid123\t1\t100\tAA" :=
  ⟨rfl, rfl, rfl, by decide, rfl⟩

/-- C5 amended: the parser skips a line if and only if, after stripping,
it is blank, starts with `"#"`, or starts with the prefix `"rsid"` (so a
data line whose identifier merely starts with `"rsid"` is also skipped). -/
theorem classifyLine_skip_iff (line : String) :
    classifyLine line = LineResult.skipped ↔
      (pyStrip line = "" ∨ pyStartsWith (pyStrip line) "#" = true ∨
        pyStartsWith (pyStrip line) "rsid" = true) := by
  unfold classifyLine
  by_cases h1 : pyStartsWith (pyStrip line) "#" = true
  · simp [h1]
  · by_cases h2 : pyStrip line = ""
    · simp [h2]
    · by_cases h3 : pyStartsWith (pyStrip line) "rsid" = true
      · simp [h1, h2, h3]
      · simp [h1, h2, h3, parseFields_ne_skipped]

/-- C4: a non-blank, non-comment, non-header line whose (stripped) text
does not split on tabs into exactly 4 fields is silently discarded: no
record is produced and the parsing step leaves every counter unchanged. -/
theorem step_malformed_line_noop (line : String) (st : DecoderState)
    (hblank : pyStrip line ≠ "")
    (hcomment : pyStartsWith (pyStrip line) "#" = false)
    (hheader : (pySplitTab (pyStrip line)).head? ≠ some "rsid")
    (hlen : (pySplitTab (pyStrip line)).length ≠ 4) :
    step st line = st ∧ ∀ r, classifyLine line ≠ LineResult.record r := by
  have hrec : ∀ r, classifyLine line ≠ LineResult.record r := by
    intro r h
    exact hlen (classifyLine_record_length line r h)
  refine ⟨?_, hrec⟩
  rcases h : classifyLine line with _ | _ | r
  · simp [step, h]
  · simp [step, h]
  · exact absurd h (hrec r)

/-- Witness: the 3-field line `"a\tb\tc"` leaves the fresh state unchanged. -/
theorem step_malformed_line_noop_witness :
    pyStrip "a\tb\tc" ≠ "" ∧
    pyStartsWith (pyStrip "a\tb\tc") "#" = false ∧
    (pySplitTab (pyStrip "a\tb\tc")).head? ≠ some "rsid" ∧
    (pySplitTab (pyStrip "a\tb\tc")).length ≠ 4 ∧
    step initState "a\tb\tc" = initState :=
  ⟨by decide, rfl, by decide, by decide,
    (step_malformed_line_noop "a\tb\tc" initState (by decide) rfl (by decide) (by decide)).1⟩

lemma charDecValue_ascii (c : Char) (h : c.toNat < 128) :
    charDecValue c = (if c.isDigit then some (c.toNat - '0'.toNat) else none) := by
  unfold charDecValue
  by_cases hd : c.isDigit
  · simp [hd]
  · have h660 : (0x660 ≤ c.toNat && c.toNat ≤ 0x669) = false := by
      simp only [Bool.and_eq_false_iff, decide_eq_false_iff_not]
      omega
    simp [hd, h660]

lemma pyCharIsDigit_ascii (c : Char) (h : c.toNat < 128) :
    pyCharIsDigit c = c.isDigit := by
  unfold pyCharIsDigit
  rw [charDecValue_ascii c h]
  by_cases hd : c.isDigit
  · simp [hd]
  · have hd' : c.isDigit = false := by simpa using hd
    have h1 : (c.toNat == 0xB9) = false := by simp; omega
    have h2 : (c.toNat == 0xB2) = false := by simp; omega
    have h3 : (c.toNat == 0xB3) = false := by simp; omega
    simp [hd', h1, h2, h3]

lemma all_pyCharIsDigit_ascii (l : List Char) (h : ∀ c ∈ l, c.toNat < 128) :
    l.all pyCharIsDigit = l.all Char.isDigit := by
  induction l with
  | nil => rfl
  | cons c cs ih =>
    simp only [List.all_cons, pyCharIsDigit_ascii c (h c (by simp)),
      ih (fun d hd => h d (by simp [hd]))]

lemma foldl_charDecValue_digits (l : List Char) (h : ∀ c ∈ l, c.isDigit = true) (n : Nat) :
    l.foldl (fun n c => n * 10 + (charDecValue c).getD 0) n =
      l.foldl (fun n c => n * 10 + (c.toNat - '0'.toNat)) n := by
  induction l generalizing n with
  | nil => rfl
  | cons c cs ih =>
    have hc : charDecValue c = some (c.toNat - '0'.toNat) := by
      unfold charDecValue
      simp [h c (by simp)]
    simp only [List.foldl_cons, hc, Option.getD_some]
    exact ih (fun d hd => h d (by simp [hd])) _

/-- On ASCII fields the Unicode model coincides with the record pipeline's
`parsePosition`, justifying the ASCII restriction used there. -/
lemma parsePositionU_ascii (p : String) (h : p.toList.all (fun c => c.toNat < 128) = true) :
    parsePositionU p = Except.ok (parsePosition p) := by
  have hall : ∀ c ∈ p.toList, c.toNat < 128 := by
    simpa [List.all_eq_true] using h
  have hdig : pyIsDigitU p = pyIsDigit p := by
    unfold pyIsDigitU pyIsDigit
    rw [all_pyCharIsDigit_ascii p.toList hall]
  unfold parsePositionU parsePosition
  rw [hdig]
  by_cases hd : pyIsDigit p = true
  · have hdigits : ∀ c ∈ p.toList, c.isDigit = true := by
      have hx := hd
      unfold pyIsDigit at hx
      simp only [Bool.and_eq_true, List.all_eq_true] at hx
      exact fun c hc => hx.2 c hc
    have hsome : p.toList.all (fun c => (charDecValue c).isSome) = true := by
      simp only [List.all_eq_true]
      intro c hc
      unfold charDecValue
      simp [hdigits c hc]
    simp only [hd, if_true, strToInt, hsome, Except.map_ok]
    rw [foldl_charDecValue_digits p.toList hdigits 0]
    rfl
  · simp [hd]

/-- C8: the claimed no-exception dichotomy fails on the code. Python
`isdigit()` also accepts non-decimal digit characters: for a position field
`"²"` the guard is true yet `int("²")` raises `ValueError`, crashing the
parse of an otherwise valid 4-field line instead of retaining the raw
string; fields of decimal digits (including non-ASCII Nd such as `"٣"`)
parse to their integer value and non-`isdigit` fields are retained. -/
theorem position_field_valueerror :
    (∀ p : String, pyIsDigitU p = false → parsePositionU p = Except.ok (PyPos.str p)) ∧
    (∀ p : String, p.toList.all (fun c => (charDecValue c).isSome) = true →
        pyIsDigitU p = true →
        parsePositionU p = Except.ok (PyPos.int
          (p.toList.foldl (fun n c => n * 10 + (charDecValue c).getD 0) 0))) ∧
    (∀ p : String, pyIsDigitU p = true →
        p.toList.all (fun c => (charDecValue c).isSome) = false →
        parsePositionU p = Except.error "ValueError") ∧
    pyIsDigitU "²" = true ∧
    classifyLineU "rs777\t1\t²\tAA" = Except.error "ValueError" ∧
    parsePositionU "12345" = Except.ok (PyPos.int 12345) ∧
    parsePositionU "٣" = Except.ok (PyPos.int 3) ∧
    parsePositionU "Un_gl000211" = Except.ok (PyPos.str "Un_gl000211") := by
  refine ⟨?_, ?_, ?_, by decide, rfl, rfl, rfl, rfl⟩
  · intro p h
    simp [parsePositionU, h]
  · intro p hdec hdig
    unfold parsePositionU strToInt
    rw [hdig, hdec]
    rfl
  · intro p hdig hdec
    unfold parsePositionU strToInt
    rw [hdig, hdec]
    rfl

/-- Witness: the three branches of the position outcome at concrete fields,
including the `ValueError` on `"²"`. -/
theorem position_field_valueerror_witness :
    (pyIsDigitU "Un_gl000211" = false ∧
      parsePositionU "Un_gl000211" = Except.ok (PyPos.str "Un_gl000211")) ∧
    ("35".toList.all (fun c => (charDecValue c).isSome) = true ∧ pyIsDigitU "35" = true ∧
      parsePositionU "35" = Except.ok (PyPos.int 35)) ∧
    (pyIsDigitU "²" = true ∧ "²".toList.all (fun c => (charDecValue c).isSome) = false ∧
      parsePositionU "²" = Except.error "ValueError") :=
  ⟨⟨by decide, position_field_valueerror.1 "Un_gl000211" (by decide)⟩,
   ⟨by decide, by decide, position_field_valueerror.2.1 "35" (by decide) (by decide)⟩,
   ⟨by decide, by decide, position_field_valueerror.2.2.1 "²" (by decide) (by decide)⟩⟩

/-! ### Aggregate counter invariants (C3, C7) -/

/-- Sum of the values of a counter dict (`sum(m.values())`). -/
def sumVals (m : List (String × Nat)) : Nat :=
  (m.map Prod.snd).sum

lemma sumVals_incr (m : List (String × Nat)) (k : String) :
    sumVals (incr m k) = sumVals m + 1 := by
  induction m with
  | nil => simp [incr, sumVals]
  | cons p rest ih =>
    obtain ⟨k', v⟩ := p
    by_cases h : k' = k <;> simp [incr, h, sumVals] at ih ⊢ <;> omega

lemma filter_incr_self (m : List (String × Nat)) (k : String) :
    (incr m k).filter (fun p => p.1 != k) = m.filter (fun p => p.1 != k) := by
  induction m with
  | nil => simp [incr]
  | cons p rest ih =>
    obtain ⟨k', v⟩ := p
    by_cases h : k' = k <;> simp [incr, h, ih]

lemma filter_incr_other (m : List (String × Nat)) (g k : String) (hgk : g ≠ k) :
    (incr m g).filter (fun p => p.1 != k) = incr (m.filter (fun p => p.1 != k)) g := by
  induction m with
  | nil => simp [incr, hgk]
  | cons p rest ih =>
    obtain ⟨k', v⟩ := p
    by_cases h : k' = g
    · subst h
      simp [incr, hgk]
    · by_cases h2 : k' = k
      · subst h2
        simp [incr, h, ih]
      · simp [incr, h, h2, ih]

/-- Inductive invariant of the parsing loop. -/
def StateInv (st : DecoderState) : Prop :=
  st.total_snps = st.snps.length ∧
  st.total_snps = sumVals st.chromosome_counts ∧
  st.total_snps = sumVals st.genotype_counts ∧
  st.no_calls = (st.snps.filter (fun r => r.genotype == "--")).length ∧
  st.no_calls + sumVals (st.genotype_counts.filter (fun p => p.1 != "--")) = st.total_snps

lemma stateInv_init : StateInv initState :=
  ⟨rfl, rfl, rfl, rfl, rfl⟩

lemma stateInv_step (st : DecoderState) (line : String) (h : StateInv st) :
    StateInv (step st line) := by
  obtain ⟨h1, h2, h3, h4, h5⟩ := h
  unfold step
  rcases hc : classifyLine line with _ | _ | r
  · exact ⟨h1, h2, h3, h4, h5⟩
  · exact ⟨h1, h2, h3, h4, h5⟩
  · by_cases hg : r.genotype = "--"
    · refine ⟨?_, ?_, ?_, ?_, ?_⟩ <;>
        simp [StateInv, hg, sumVals_incr, List.filter_append, filter_incr_self,
          h1, h2, h3, h4, h5] <;>
        omega
    · refine ⟨?_, ?_, ?_, ?_, ?_⟩ <;>
        simp [StateInv, hg, sumVals_incr, List.filter_append, filter_incr_other _ _ _ hg,
          h1, h2, h3, h4, h5] <;>
        omega

lemma stateInv_foldl (lines : List String) (st : DecoderState) (h : StateInv st) :
    StateInv (lines.foldl step st) := by
  induction lines generalizing st with
  | nil => exact h
  | cons l ls ih => exact ih _ (stateInv_step st l h)

lemma stateInv_parse (lines : List String) : StateInv (parse_genome_file lines) :=
  stateInv_foldl lines initState stateInv_init

/-- C3: after parsing any line sequence, the total equals the sum of the
per-chromosome counts and the sum of the per-genotype counts, and the
no-call count is exactly the number of parsed records whose genotype is
`"--"`, hence at most the total. -/
theorem parse_aggregate_invariants (lines : List String) :
    (parse_genome_file lines).total_snps = sumVals (parse_genome_file lines).chromosome_counts ∧
    (parse_genome_file lines).total_snps = sumVals (parse_genome_file lines).genotype_counts ∧
    (parse_genome_file lines).no_calls =
      ((parse_genome_file lines).snps.filter (fun r => r.genotype == "--")).length ∧
    (parse_genome_file lines).no_calls ≤ (parse_genome_file lines).total_snps := by
  obtain ⟨h1, h2, h3, h4, h5⟩ := stateInv_parse lines
  exact ⟨h2, h3, h4, by omega⟩

lemma homoHet_fst (m : List (String × Nat)) :
    (homoHetTotals m).1 = sumVals (m.filter (fun p => p.1 != "--" && isHomo2 p.1)) := by
  induction m with
  | nil => rfl
  | cons p rest ih =>
    obtain ⟨g, c⟩ := p
    by_cases hg : g = "--"
    · simp [homoHetTotals, hg, ih]
    · rcases hl : g.data with _ | ⟨a, _ | ⟨b, _ | ⟨d, tl⟩⟩⟩
      · simp [homoHetTotals, hg, hl, isHomo2, ih, sumVals]
      · simp [homoHetTotals, hg, hl, isHomo2, ih, sumVals]
      · by_cases hab : a = b
        · simp [homoHetTotals, hg, hl, isHomo2, hab, ih, sumVals]
          omega
        · simp [homoHetTotals, hg, hl, isHomo2, hab, ih, sumVals]
      · simp [homoHetTotals, hg, hl, isHomo2, ih, sumVals]

lemma homoHet_snd (m : List (String × Nat)) :
    (homoHetTotals m).2 = sumVals (m.filter (fun p => p.1 != "--" && isHet2 p.1)) := by
  induction m with
  | nil => rfl
  | cons p rest ih =>
    obtain ⟨g, c⟩ := p
    by_cases hg : g = "--"
    · simp [homoHetTotals, hg, ih]
    · rcases hl : g.data with _ | ⟨a, _ | ⟨b, _ | ⟨d, tl⟩⟩⟩
      · simp [homoHetTotals, hg, hl, isHet2, ih, sumVals]
      · simp [homoHetTotals, hg, hl, isHet2, ih, sumVals]
      · by_cases hab : a = b
        · simp [homoHetTotals, hg, hl, isHet2, hab, ih, sumVals]
        · simp [homoHetTotals, hg, hl, isHet2, hab, ih, sumVals]
          omega
      · simp [homoHetTotals, hg, hl, isHet2, ih, sumVals]

lemma homoHet_le (m : List (String × Nat)) :
    (homoHetTotals m).1 + (homoHetTotals m).2 ≤
      sumVals (m.filter (fun p => p.1 != "--")) := by
  induction m with
  | nil => simp [homoHetTotals, sumVals]
  | cons p rest ih =>
    obtain ⟨g, c⟩ := p
    by_cases hg : g = "--"
    · simpa [homoHetTotals, hg] using ih
    · rcases hl : g.data with _ | ⟨a, _ | ⟨b, _ | ⟨d, tl⟩⟩⟩
      · simp [homoHetTotals, hg, hl, sumVals] at ih ⊢; omega
      · simp [homoHetTotals, hg, hl, sumVals] at ih ⊢; omega
      · by_cases hab : a = b
        · simp [homoHetTotals, hg, hl, hab, sumVals] at ih ⊢; omega
        · simp [homoHetTotals, hg, hl, hab, sumVals] at ih ⊢; omega
      · simp [homoHetTotals, hg, hl, sumVals] at ih ⊢; omega

/-- C7: the classification loop counts every observed non-sentinel genotype
of length exactly 2 as homozygous when its two characters coincide and as
heterozygous otherwise, silently excludes genotypes of any other length,
and its two totals never exceed `total_snps - no_calls`. -/
theorem genotype_classification_totals :
    (∀ m : List (String × Nat),
      (homoHetTotals m).1 = sumVals (m.filter (fun p => p.1 != "--" && isHomo2 p.1)) ∧
      (homoHetTotals m).2 = sumVals (m.filter (fun p => p.1 != "--" && isHet2 p.1))) ∧
    (∀ lines : List String,
      (homoHetTotals (parse_genome_file lines).genotype_counts).1 +
        (homoHetTotals (parse_genome_file lines).genotype_counts).2 ≤
        (parse_genome_file lines).total_snps - (parse_genome_file lines).no_calls) := by
  refine ⟨fun m => ⟨homoHet_fst m, homoHet_snd m⟩, fun lines => ?_⟩
  obtain ⟨h1, h2, h3, h4, h5⟩ := stateInv_parse lines
  have hle := homoHet_le (parse_genome_file lines).genotype_counts
  omega

/-! ### Variant interpreter: last-occurrence semantics and APOE (C10, C2) -/

lemma lookupAssoc_updateAssoc_self {α : Type} (m : List (String × α)) (k : String) (v : α) :
    lookupAssoc (updateAssoc m k v) k = some v := by
  induction m with
  | nil => simp [updateAssoc, lookupAssoc]
  | cons p rest ih =>
    obtain ⟨k', v'⟩ := p
    by_cases h : k' = k <;> simp [updateAssoc, lookupAssoc, h, ih]

lemma lookupAssoc_updateAssoc_other {α : Type} (m : List (String × α)) (k q : String) (v : α)
    (h : q ≠ k) : lookupAssoc (updateAssoc m k v) q = lookupAssoc m q := by
  induction m with
  | nil => simp [updateAssoc, lookupAssoc, Ne.symm h]
  | cons p rest ih =>
    obtain ⟨k', v'⟩ := p
    by_cases h1 : k' = k
    · subst h1
      simp [updateAssoc, lookupAssoc, Ne.symm h]
    · by_cases h2 : k' = q <;> simp [updateAssoc, lookupAssoc, h, h1, h2, ih]

lemma getLast?_cons_eq {α : Type} (a : α) (l : List α) :
    (a :: l).getLast? = some (l.getLast?.getD a) := by
  induction l generalizing a with
  | nil => rfl
  | cons b l2 ih => rw [List.getLast?_cons_cons, ih b]; rfl

/-- Scanning `records` left to right, the `found_snps` entry for a notable
marker `r` is the last record in input order whose rsid is `r` (falling back
to whatever the accumulator already held). -/
lemma scan_found_lookup (records : List Record)
    (acc : List (String × Record) × List (String × String)) (r : String)
    (hr : (lookupAssoc interesting_snps r).isSome = true) :
    lookupAssoc (records.foldl snpScanStep acc).1 r =
      ((records.filter (fun s => s.rsid == r)).getLast?).or (lookupAssoc acc.1 r) := by
  induction records generalizing acc with
  | nil => simp
  | cons snp rest ih =>
    rw [List.foldl_cons, ih]
    by_cases hs : snp.rsid = r
    · subst hs
      have hstep : (snpScanStep acc snp).1 = updateAssoc acc.1 snp.rsid snp := by
        simp [snpScanStep, hr]
      rw [List.filter_cons_of_pos (by simp)]
      rw [getLast?_cons_eq]
      cases hfr : (rest.filter (fun s => s.rsid == snp.rsid)).getLast? with
      | none => simp [hfr, hstep, lookupAssoc_updateAssoc_self]
      | some s => simp [hfr]
    · rw [List.filter_cons_of_neg (by simp [hs])]
      have hkeep : lookupAssoc (snpScanStep acc snp).1 r = lookupAssoc acc.1 r := by
        unfold snpScanStep
        by_cases hi : (lookupAssoc interesting_snps snp.rsid).isSome = true
        · simp only [hi, if_true]
          exact lookupAssoc_updateAssoc_other _ _ _ _ (Ne.symm hs)
        · simp [hi]
      rw [hkeep]

/-- Same statement for the `apoe_snps` dict: the stored genotype for an
APOE marker is that of the last record carrying it. -/
lemma scan_apoe_lookup (records : List Record)
    (acc : List (String × Record) × List (String × String)) (r : String)
    (hr : r = "rs429358" ∨ r = "rs7412") :
    lookupAssoc (records.foldl snpScanStep acc).2 r =
      (((records.filter (fun s => s.rsid == r)).getLast?).map (fun s => s.genotype)).or
        (lookupAssoc acc.2 r) := by
  have hint : (lookupAssoc interesting_snps r).isSome = true := by
    rcases hr with h | h <;> subst h <;> decide
  induction records generalizing acc with
  | nil => simp
  | cons snp rest ih =>
    rw [List.foldl_cons, ih]
    by_cases hs : snp.rsid = r
    · subst hs
      have hstep : (snpScanStep acc snp).2 = updateAssoc acc.2 snp.rsid snp.genotype := by
        have hor : (snp.rsid = "rs429358" || snp.rsid = "rs7412") = true := by
          rcases hr with h | h <;> simp [h]
        simp [snpScanStep, hint, hor]
      rw [List.filter_cons_of_pos (by simp)]
      rw [getLast?_cons_eq]
      cases hfr : (rest.filter (fun s => s.rsid == snp.rsid)).getLast? with
      | none => simp [hfr, hstep, lookupAssoc_updateAssoc_self]
      | some s => simp [hfr]
    · rw [List.filter_cons_of_neg (by simp [hs])]
      have hkeep : lookupAssoc (snpScanStep acc snp).2 r = lookupAssoc acc.2 r := by
        unfold snpScanStep
        by_cases hi : (lookupAssoc interesting_snps snp.rsid).isSome = true
        · simp only [hi, if_true]
          by_cases ha : (snp.rsid = "rs429358" || snp.rsid = "rs7412") = true
          · simp only [ha, if_true]
            exact lookupAssoc_updateAssoc_other _ _ _ _ (Ne.symm hs)
          · simp [ha]
        · simp [hi]
      rw [hkeep]

lemma lookupAssoc_some_ne_nil {α : Type} (m : List (String × α)) (k : String) (v : α)
    (h : lookupAssoc m k = some v) : m.isEmpty = false := by
  cases m with
  | nil => simp [lookupAssoc] at h
  | cons p l => rfl

/-- C10: when a notable marker occurs in several records, the scan's dict
assignments make the last occurrence in input order win: the `found_snps`
entry is the final record with that rsid, and for the APOE markers the
`apoe_snps` genotype is that of the final occurrence. -/
theorem found_snps_last_occurrence (records : List Record) (r : String)
    (hr : (lookupAssoc interesting_snps r).isSome = true) :
    lookupAssoc (buildFound records).1 r =
      (records.filter (fun s => s.rsid == r)).getLast? ∧
    (r = "rs429358" ∨ r = "rs7412" →
      lookupAssoc (buildFound records).2 r = lastGenotype records r) := by
  constructor
  · rw [buildFound, scan_found_lookup records ([], []) r hr]
    simp [lookupAssoc]
  · intro h
    rw [buildFound, scan_apoe_lookup records ([], []) r h]
    simp [lookupAssoc, lastGenotype]

/-- Witness: with two records for `rs4680`, the reported record is the
second one, and with two records for `rs7412` the stored genotype is the
second genotype. -/
theorem found_snps_last_occurrence_witness :
    (lookupAssoc interesting_snps "rs4680").isSome = true ∧
    lookupAssoc (buildFound
        [⟨"rs4680", "22", PyPos.int 1, "AA"⟩, ⟨"rs4680", "22", PyPos.int 2, "AG"⟩]).1 "rs4680" =
      some ⟨"rs4680", "22", PyPos.int 2, "AG"⟩ ∧
    lookupAssoc (buildFound
        [⟨"rs7412", "19", PyPos.int 1, "CC"⟩, ⟨"rs7412", "19", PyPos.int 2, "CT"⟩]).2 "rs7412" =
      some "CT" :=
  ⟨by decide,
   (found_snps_last_occurrence
      [⟨"rs4680", "22", PyPos.int 1, "AA"⟩, ⟨"rs4680", "22", PyPos.int 2, "AG"⟩]
      "rs4680" (by decide)).1,
   ((found_snps_last_occurrence
      [⟨"rs7412", "19", PyPos.int 1, "CC"⟩, ⟨"rs7412", "19", PyPos.int 2, "CT"⟩]
      "rs7412" (by decide)).2 (Or.inr rfl)).trans (by decide)⟩

/-- C2: APOE resolution as a function of which APOE markers are present.
With both markers present the genotype pair resolves through the fixed
6-case table, any pair outside the table giving the explicit undetermined
result; with exactly one present the status is incomplete with no
allele-pair guess; with neither present no APOE output is produced. -/
theorem apoe_resolution (records : List Record) :
    (∀ g1 g2, lastGenotype records "rs429358" = some g1 →
        lastGenotype records "rs7412" = some g2 →
        apoeStatus records = (match apoeTable g1 g2 with
          | some t => ApoeOutput.typed t
          | none => ApoeOutput.undetermined)) ∧
    (∀ g1, lastGenotype records "rs429358" = some g1 →
        lastGenotype records "rs7412" = none →
        apoeStatus records = ApoeOutput.incomplete) ∧
    (∀ g2, lastGenotype records "rs429358" = none →
        lastGenotype records "rs7412" = some g2 →
        apoeStatus records = ApoeOutput.incomplete) ∧
    (lastGenotype records "rs429358" = none → lastGenotype records "rs7412" = none →
        apoeStatus records = ApoeOutput.noOutput) ∧
    (apoeTable "TT" "TT" = some "ε2/ε2" ∧ apoeTable "CT" "CC" = some "ε3/ε4" ∧
        apoeTable "CC" "CT" = none) := by
  have hA : lookupAssoc (buildFound records).2 "rs429358" = lastGenotype records "rs429358" := by
    rw [buildFound, scan_apoe_lookup records ([], []) _ (Or.inl rfl)]
    simp [lookupAssoc, lastGenotype]
  have hB : lookupAssoc (buildFound records).2 "rs7412" = lastGenotype records "rs7412" := by
    rw [buildFound, scan_apoe_lookup records ([], []) _ (Or.inr rfl)]
    simp [lookupAssoc, lastGenotype]
  have hF1 : lookupAssoc (buildFound records).1 "rs429358" =
      (records.filter (fun s => s.rsid == "rs429358")).getLast? := by
    rw [buildFound, scan_found_lookup records ([], []) _ (by decide)]
    simp [lookupAssoc]
  have hF2 : lookupAssoc (buildFound records).1 "rs7412" =
      (records.filter (fun s => s.rsid == "rs7412")).getLast? := by
    rw [buildFound, scan_found_lookup records ([], []) _ (by decide)]
    simp [lookupAssoc]
  have hne1 : ∀ g, lastGenotype records "rs429358" = some g →
      (buildFound records).1.isEmpty = false := by
    intro g hg
    rw [lastGenotype] at hg
    obtain ⟨s, hs, -⟩ := Option.map_eq_some'.mp hg
    exact lookupAssoc_some_ne_nil _ _ s (hF1.trans hs)
  have hne2 : ∀ g, lastGenotype records "rs7412" = some g →
      (buildFound records).1.isEmpty = false := by
    intro g hg
    rw [lastGenotype] at hg
    obtain ⟨s, hs, -⟩ := Option.map_eq_some'.mp hg
    exact lookupAssoc_some_ne_nil _ _ s (hF2.trans hs)
  refine ⟨?_, ?_, ?_, ?_, rfl, rfl, rfl⟩
  · intro g1 g2 h1 h2
    simp only [apoeStatus]
    rw [hne1 g1 h1]
    simp only [Bool.false_eq_true, if_false, hA, hB, h1, h2]
  · intro g1 h1 h2
    simp only [apoeStatus]
    rw [hne1 g1 h1]
    simp only [Bool.false_eq_true, if_false, hA, hB, h1, h2]
  · intro g2 h1 h2
    simp only [apoeStatus]
    rw [hne2 g2 h2]
    simp only [Bool.false_eq_true, if_false, hA, hB, h1, h2]
  · intro h1 h2
    simp only [apoeStatus]
    cases he : (buildFound records).1.isEmpty with
    | true => simp [he]
    | false => simp only [he, Bool.false_eq_true, if_false, hA, hB, h1, h2]

/-- Witness: the three spec examples plus the one-marker and no-marker cases
on concrete record lists. -/
theorem apoe_resolution_witness :
    apoeStatus [⟨"rs429358", "19", PyPos.int 1, "TT"⟩, ⟨"rs7412", "19", PyPos.int 2, "TT"⟩] =
      ApoeOutput.typed "ε2/ε2" ∧
    apoeStatus [⟨"rs429358", "19", PyPos.int 1, "CT"⟩, ⟨"rs7412", "19", PyPos.int 2, "CC"⟩] =
      ApoeOutput.typed "ε3/ε4" ∧
    apoeStatus [⟨"rs429358", "19", PyPos.int 1, "CC"⟩, ⟨"rs7412", "19", PyPos.int 2, "CT"⟩] =
      ApoeOutput.undetermined ∧
    apoeStatus [⟨"rs429358", "19", PyPos.int 1, "TT"⟩] = ApoeOutput.incomplete ∧
    apoeStatus [⟨"rs4680", "22", PyPos.int 1, "AA"⟩] = ApoeOutput.noOutput :=
  ⟨(apoe_resolution _).1 "TT" "TT" (by decide) (by decide),
   (apoe_resolution _).1 "CT" "CC" (by decide) (by decide),
   (apoe_resolution _).1 "CC" "CT" (by decide) (by decide),
   (apoe_resolution _).2.1 "TT" (by decide) (by decide),
   (apoe_resolution _).2.2.2.1 (by decide) (by decide)⟩

/-! ### Chromosome display ordering (C6) -/

lemma chromKey_snd (c : String) : (chromKey c).2 = c := by
  unfold chromKey
  split <;> rfl

instance chromKeyLtDec (a b : Nat × String) : Decidable (chromKeyLt a b) := by
  unfold chromKeyLt; exact inferInstance

instance chromLtDec (a b : String) : Decidable (chromLt a b) := by
  unfold chromLt; exact inferInstance

/-- C6: the sort-key comparison is a strict total order on chromosome
labels (irreflexive, transitive, total on distinct labels), under which
numeric labels sort ascending by integer value, `"X"` comes after every
numeric label in the `"1".."22"` range, `"Y"` after `"X"`, and every other
label after `"Y"`; in particular `"2" < "10" < "X" < "Y" < "MT"`. -/
theorem chromosome_display_order :
    (∀ a : String, ¬ chromLt a a) ∧
    (∀ a b c : String, chromLt a b → chromLt b c → chromLt a c) ∧
    (∀ a b : String, a ≠ b → chromLt a b ∨ chromLt b a) ∧
    (∀ a b : String, pyIsDigit a = true → pyIsDigit b = true →
        strToNat a < strToNat b → chromLt a b) ∧
    (∀ a : String, pyIsDigit a = true → strToNat a ≤ 22 → chromLt a "X") ∧
    chromLt "X" "Y" ∧
    (∀ c : String, pyIsDigit c = false → c ≠ "X" → c ≠ "Y" → chromLt "Y" c) ∧
    (chromLt "2" "10" ∧ chromLt "10" "X" ∧ chromLt "Y" "MT") := by
  refine ⟨?_, ?_, ?_, ?_, ?_, by decide, ?_, by decide, by decide, by decide⟩
  · intro a h
    rcases h with h | ⟨-, h⟩
    · exact lt_irrefl _ h
    · exact lt_irrefl _ h
  · intro a b c h1 h2
    rcases h1 with h1 | ⟨e1, h1⟩ <;> rcases h2 with h2 | ⟨e2, h2⟩
    · exact Or.inl (lt_trans h1 h2)
    · exact Or.inl (e2 ▸ h1)
    · exact Or.inl (e1 ▸ h2)
    · exact Or.inr ⟨e1.trans e2, lt_trans h1 h2⟩
  · intro a b hab
    rcases Nat.lt_trichotomy (chromKey a).1 (chromKey b).1 with h | h | h
    · exact Or.inl (Or.inl h)
    · have hs : (chromKey a).2 ≠ (chromKey b).2 := by
        rw [chromKey_snd, chromKey_snd]; exact hab
      rcases lt_or_gt_of_ne hs with hlt | hgt
      · exact Or.inl (Or.inr ⟨h, hlt⟩)
      · exact Or.inr (Or.inr ⟨h.symm, hgt⟩)
    · exact Or.inr (Or.inl h)
  · intro a b ha hb hlt
    left
    simp [chromKey, ha, hb, hlt]
  · intro a ha hle
    have hx : chromKey "X" = (100, "X") := by decide
    have hka : chromKey a = (strToNat a, a) := by simp [chromKey, ha]
    left
    rw [hka, hx]
    show strToNat a < 100
    omega
  · intro c hc hx hy
    have hyk : chromKey "Y" = (101, "Y") := by decide
    have hkc : chromKey c = (102, c) := by simp [chromKey, hc, hx, hy]
    left
    rw [hyk, hkc]
    show (101 : Nat) < 102
    omega

/-- Witness: the hypothesis-bearing clauses of the ordering theorem at
concrete labels. -/
theorem chromosome_display_order_witness :
    chromLt "3" "15" ∧ chromLt "21" "X" ∧ chromLt "Y" "MT" ∧
    (chromLt "7" "MT" ∨ chromLt "MT" "7") :=
  ⟨chromosome_display_order.2.2.2.1 "3" "15" (by decide) (by decide) (by decide),
   chromosome_display_order.2.2.2.2.1 "21" (by decide) (by decide),
   chromosome_display_order.2.2.2.2.2.2.1 "MT" (by decide) (by decide) (by decide),
   chromosome_display_order.2.2.1 "7" "MT" (by decide)⟩

end GenomeDecoder
